import Mathlib

/-!
Verification of the `rs-utils` logging core and helper macros.

The Rust sources embedded here:
  * `src/log/log4rs.rs` — `Log4rsConfig` builder and its `initialize` method
    (called `activate` below, since `initialize` is a Lean keyword);
  * `src/log/cat.rs` — the `LogCat` tagged logger and its colorized local-mode
    rendering;
  * `src/log.rs` — the leveled `trace!`/`debug!`/`info!`/`warn!`/`error!` macros;
  * `src/macros/py.rs` — the `with!` scoped-resource macro;
  * `src/macros/mod.rs` — the `enum_extend!` enum/integer codec generator.
-/

namespace RsUtils

/-- Record severities of the `log` crate (`log::Level`), ordered by the spec as
Trace < Debug < Info < Warn < Error (Trace least severe). -/
inductive Severity where
  | trace
  | debug
  | info
  | warn
  | error
deriving DecidableEq, Repr, Fintype

/-- Threshold filters of the `log` crate (`log::LevelFilter`): the severities
plus `Off`. -/
inductive LevelFilter where
  | off
  | error
  | warn
  | info
  | debug
  | trace
deriving DecidableEq, Repr, Fintype

/-- The spec's severity rank: Trace = 0 (least severe) up to Error = 4. -/
def Severity.severityRank : Severity → Nat
  | .trace => 0
  | .debug => 1
  | .info => 2
  | .warn => 3
  | .error => 4

/-- The `log` crate's numeric representation of `log::Level`
(`Error = 1, ..., Trace = 5`); its derived order runs opposite to severity. -/
def Severity.logOrdinal : Severity → Nat
  | .error => 1
  | .warn => 2
  | .info => 3
  | .debug => 4
  | .trace => 5

/-- The `log` crate's numeric representation of `log::LevelFilter`
(`Off = 0, Error = 1, ..., Trace = 5`). -/
def LevelFilter.logOrdinal : LevelFilter → Nat
  | .off => 0
  | .error => 1
  | .warn => 2
  | .info => 3
  | .debug => 4
  | .trace => 5

/-- The `LevelFilter` with the same name as the given severity. -/
def Severity.toFilter : Severity → LevelFilter
  | .trace => .trace
  | .debug => .debug
  | .info => .info
  | .warn => .warn
  | .error => .error

/-- Modelled from the spec: the admission check performed by the external
`log4rs::filter::threshold::ThresholdFilter` that `Log4rsConfig::initialize`
attaches to each appender (the filter itself is not part of this repository).
The spec, 4.1: `admits(level, threshold) -> bool`, true iff `level >=
threshold`; the filter rejects a record whose `log`-crate level compares above
the stored threshold, i.e. a record less severe than the threshold. -/
def thresholdAdmits (threshold : LevelFilter) (level : Severity) : Bool :=
  !(decide (threshold.logOrdinal < level.logOrdinal))

/-! ## `Log4rsConfig` and its `initialize` method (src/log/log4rs.rs)

`initialize` is a Lean keyword, so the method is embedded under the spec's
name for it, `activate`. Filesystem actions and the outcome of the external
calls (`std::fs::create_dir_all`, `FileAppender::build`,
`log4rs::init_config`) are made explicit: the filesystem actions are recorded
as a trace, the outcomes come from an `Env` argument, and the process-wide
installed backend is threaded as a `ProcState`. -/

/-- A clock reading, standing for `chrono::Local::now()`. -/
structure Timestamp where
  year : Nat
  month : Nat
  day : Nat
  hour : Nat
  minute : Nat
  second : Nat
deriving DecidableEq, Repr

/-- Zero-pad a number to two digits, as chrono's `%m`/`%d`/`%H`/`%M`/`%S` do. -/
def pad2 (n : Nat) : String :=
  if n < 10 then "0" ++ toString n else toString n

/-- Zero-pad a year to four digits, as chrono's `%Y` does. -/
def pad4 (n : Nat) : String :=
  if n < 10 then "000" ++ toString n
  else if n < 100 then "00" ++ toString n
  else if n < 1000 then "0" ++ toString n
  else toString n

/-- The chrono format string `%Y-%m-%d %H_%M_%S` used by `initialize` for the
log file name. -/
def fmtTimestamp (t : Timestamp) : String :=
  pad4 t.year ++ "-" ++ pad2 t.month ++ "-" ++ pad2 t.day ++ " " ++
    pad2 t.hour ++ "_" ++ pad2 t.minute ++ "_" ++ pad2 t.second

/-- Destination of an appender: the console appender targets `Target::Stderr`;
a file appender holds the path it was built with and its `append` flag
(`false` = truncate). -/
inductive Destination where
  | consoleStderr
  | file (path : String) (append : Bool)
deriving DecidableEq, Repr

/-- Whether a destination is a file destination. -/
def Destination.isFile : Destination → Bool
  | .consoleStderr => false
  | .file _ _ => true

/-- One appender as assembled by `initialize`: its registered name, the
`ThresholdFilter` level attached to it, the `PatternEncoder` pattern, and its
destination. -/
structure AppenderCfg where
  name : String
  threshold : LevelFilter
  encoderPattern : String
  dest : Destination
deriving DecidableEq, Repr

/-- The assembled log4rs configuration installed as the process-wide backend:
appender list, the appender names referenced by the root, and the root level. -/
structure BuiltConfig where
  appenders : List AppenderCfg
  rootRefs : List String
  rootLevel : LevelFilter
deriving DecidableEq, Repr

/-- The `Log4rsConfig` builder struct: every field optional, set by the
chained setters. -/
structure Log4rsConfig where
  root_level : Option LevelFilter := none
  console_level : Option LevelFilter := none
  filename : Option String := none
  filepath : Option String := none
  file_level : Option LevelFilter := none
  pattern : Option String := none
deriving DecidableEq, Repr

def Log4rsConfig.set_root_level (c : Log4rsConfig) (level : LevelFilter) : Log4rsConfig :=
  { c with root_level := some level }

def Log4rsConfig.set_console_level (c : Log4rsConfig) (filter : LevelFilter) : Log4rsConfig :=
  { c with console_level := some filter }

def Log4rsConfig.set_file_level (c : Log4rsConfig) (filter : LevelFilter) : Log4rsConfig :=
  { c with file_level := some filter }

def Log4rsConfig.set_filename (c : Log4rsConfig) (filename : String) : Log4rsConfig :=
  { c with filename := some filename }

def Log4rsConfig.set_filepath (c : Log4rsConfig) (filepath : String) : Log4rsConfig :=
  { c with filepath := some filepath }

def Log4rsConfig.set_pattern (c : Log4rsConfig) (pattern : String) : Log4rsConfig :=
  { c with pattern := some pattern }

/-- The default pattern literal of `initialize`,
`{d} [{l}] {t}[{L}]: {m}{n}` (braces escaped). -/
def defaultPattern : String :=
  "\x7bd\x7d [\x7bl\x7d] \x7bt\x7d[\x7bL\x7d]: \x7bm\x7d\x7bn\x7d"

/-- Filesystem actions performed by `initialize`, in order. -/
inductive FsEffect where
  | createDirAll (path : String)
  | openFile (path : String) (append : Bool)
deriving DecidableEq, Repr

/-- Errors `initialize` can return (it returns `Result`, it never panics). -/
inductive InitError where
  | ioError
  | fileOpenError
  | alreadySet
deriving DecidableEq, Repr

/-- Outcomes of the external calls made during one `initialize` run:
whether `create_dir_all` succeeds, whether `FileAppender::build` succeeds,
and the current local time. -/
structure Env where
  dirCreateOk : Bool
  fileOpenOk : Bool
  now : Timestamp
deriving DecidableEq, Repr

/-- Process-wide logging state: at most one installed backend. -/
structure ProcState where
  backend : Option BuiltConfig
deriving DecidableEq, Repr

/-- Modelled from the spec for the final step only: `log4rs::init_config`
(external to this repository) installs the configuration as the process-wide
logger and errors if a logger is already set — the spec's one-shot
`activate()` contract. Everything before that step is the repository's own
`initialize` body. -/
def installConfig (st : ProcState) (b : BuiltConfig) :
    ProcState × Except InitError Unit :=
  match st.backend with
  | some _ => (st, .error .alreadySet)
  | none => (⟨some b⟩, .ok ())

/-- The body of `Log4rsConfig::initialize` (src/log/log4rs.rs, lines
107–159): builds a stderr console appender with a `ThresholdFilter` at the
console level (default Debug); if a filename is set, creates the log
directory, opens `{filepath}/{filename}-{timestamp}.log` with
`append(false)`, and adds a file appender with a `ThresholdFilter` at the
file level (default Debug); then builds the root at the root level (default
Trace) and installs the configuration. Returns the final process state, the
trace of filesystem actions, and the `Result`. -/
def Log4rsConfig.activate (cfg : Log4rsConfig) (env : Env) (st : ProcState) :
    ProcState × List FsEffect × Except InitError Unit :=
  let pattern := cfg.pattern.getD defaultPattern
  let consoleApp : AppenderCfg :=
    ⟨"console", cfg.console_level.getD .debug, pattern, .consoleStderr⟩
  match cfg.filename with
  | none =>
    let b : BuiltConfig :=
      ⟨[consoleApp], ["console"], cfg.root_level.getD .trace⟩
    let r := installConfig st b
    (r.1, [], r.2)
  | some fn =>
    let filepath := cfg.filepath.getD "logs"
    if env.dirCreateOk = false then
      (st, [.createDirAll filepath], .error .ioError)
    else
      let path := filepath ++ "/" ++ fn ++ "-" ++ fmtTimestamp env.now ++ ".log"
      if env.fileOpenOk = false then
        (st, [.createDirAll filepath, .openFile path false], .error .fileOpenError)
      else
        let fileApp : AppenderCfg :=
          ⟨"file", cfg.file_level.getD .debug, pattern, .file path false⟩
        let b : BuiltConfig :=
          ⟨[consoleApp, fileApp], ["console", "file"], cfg.root_level.getD .trace⟩
        let r := installConfig st b
        (r.1, [.createDirAll filepath, .openFile path false], r.2)

/-! ## `LogCat` local-mode rendering (src/log/cat.rs)

`LogCat` carries a tag. In the two `debug_assertions` builds every leveled
method prints one colorized line with `println!`; the `log-lineno` feature
additionally appends the caller's file and line captured by
`#[track_caller]`. The format strings below are the source's literals. -/

/-- The `LogCat` logger value: an immutable tag. -/
structure LogCat where
  tag : String
deriving DecidableEq, Repr

/-- A `std::panic::Location` caller capture: file name and line number. -/
structure CallerLoc where
  file : String
  line : Nat
deriving DecidableEq, Repr

/-- The line a local-mode (`debug_assertions`) leveled method prints.
`lineno = true` selects the `log-lineno` impl block with the
`... ({}:{})` suffix; `lineno = false` selects the plain impl block.
Each arm carries the source's format-string literal. -/
def renderLocal (lineno : Bool) (tag : String) (sev : Severity) (msg : String)
    (loc : CallerLoc) : String :=
  if lineno then
    match sev with
    | .trace =>
      "\x1b[95m[ TRACE] - " ++ tag ++ " - " ++ msg ++ " (" ++ loc.file ++ ":"
        ++ toString loc.line ++ ")\x1b[0m"
    | .debug =>
      "\x1b[96m[ DEBUG] - " ++ tag ++ " - " ++ msg ++ " (" ++ loc.file ++ ":"
        ++ toString loc.line ++ ")\x1b[0m"
    | .info =>
      "\x1b[32m[  INFO] - " ++ tag ++ " - " ++ msg ++ " (" ++ loc.file ++ ":"
        ++ toString loc.line ++ ")\x1b[0m"
    | .warn =>
      "\x1b[33m[  WARN] - " ++ tag ++ " - " ++ msg ++ " (" ++ loc.file ++ ":"
        ++ toString loc.line ++ ")\x1b[0m"
    | .error =>
      "\x1b[31m[ ERROR] - " ++ tag ++ " - " ++ msg ++ " (" ++ loc.file ++ ":"
        ++ toString loc.line ++ ")\x1b[0m"
  else
    match sev with
    | .trace => "\x1b[95m[ TRACE] - " ++ tag ++ " - " ++ msg ++ "\x1b[0m"
    | .debug => "\x1b[96m[ DEBUG] - " ++ tag ++ " - " ++ msg ++ "\x1b[0m"
    | .info => "\x1b[32m[  INFO] - " ++ tag ++ " - " ++ msg ++ "\x1b[0m"
    | .warn => "\x1b[33m[  WARN] - " ++ tag ++ " - " ++ msg ++ "\x1b[0m"
    | .error => "\x1b[31m[ ERROR] - " ++ tag ++ " - " ++ msg ++ "\x1b[0m"

/-- The fixed ANSI color code of each severity in the local-mode format
strings. -/
def colorCode : Severity → String
  | .trace => "\x1b[95m"
  | .debug => "\x1b[96m"
  | .info => "\x1b[32m"
  | .warn => "\x1b[33m"
  | .error => "\x1b[31m"

/-- The fixed-width severity label in the local-mode format strings. -/
def levelLabel : Severity → String
  | .trace => "[ TRACE]"
  | .debug => "[ DEBUG]"
  | .info => "[  INFO]"
  | .warn => "[  WARN]"
  | .error => "[ ERROR]"

/-- The ANSI reset code closing every local-mode line. -/
def ansiReset : String := "\x1b[0m"

/-- Observable process world for the facade: the installed backend and the
sequence of console lines printed so far. -/
structure World where
  backend : Option BuiltConfig
  consoleOut : List String
deriving DecidableEq, Repr

/-- A local-mode (`debug_assertions`) leveled call on a `LogCat`: it prints
one rendered line to the console with `println!`, consulting nothing else —
in particular not the installed backend. -/
def LogCat.leveled (c : LogCat) (lineno : Bool) (sev : Severity) (msg : String)
    (loc : CallerLoc) (w : World) : World :=
  { w with consoleOut := w.consoleOut ++ [renderLocal lineno c.tag sev msg loc] }

/-! ## Leveled macros (src/log.rs)

Each macro has an empty arm `() => println!()` — one blank line in every
build — and a nonempty arm that prints a colorized line under
`debug_assertions` and otherwise delegates to the `log` crate macro of the
same level. -/

/-- Which build the crate was compiled in: `debug_assertions` on or off. -/
inductive BuildMode where
  | debugBuild
  | releaseBuild
deriving DecidableEq, Repr

/-- An observable emission of a leveled macro: a console line printed by
`println!`, or a record handed to the `log` crate backend. -/
inductive Emit where
  | console (line : String)
  | backendRec (sev : Severity) (msg : String)
deriving DecidableEq, Repr

/-- The color prefix of the nonempty macro arm of each level in src/log.rs
(the macros print `{color}[LABEL] - {message}{reset}`, with no tag). -/
def macroColorLabel : Severity → String
  | .trace => "\x1b[95m[ TRACE] - "
  | .debug => "\x1b[96m[ DEBUG] - "
  | .info => "\x1b[32m[  INFO] - "
  | .warn => "\x1b[33m[  WARN] - "
  | .error => "\x1b[31m[ ERROR] - "

/-- One invocation of a leveled macro of src/log.rs at severity `sev`.
`args = none` is the empty-argument arm `trace!()`, which expands to
`println!()` — one blank console line — in every build mode. With arguments,
the `debug_assertions` arm prints one colorized line and the release arm
delegates to the `log` crate. -/
def macroEmit (sev : Severity) (mode : BuildMode) (args : Option String) :
    List Emit :=
  match args with
  | none => [.console ""]
  | some s =>
    match mode with
    | .debugBuild => [.console (macroColorLabel sev ++ s ++ "\x1b[0m")]
    | .releaseBuild => [.backendRec sev s]

/-! ## The `with!` macro (src/macros/py.rs)

`with!($init => |$name| $body)` expands to: bind the value, call
`__enter__()`; on `Err(e)` the whole expression is `Err(e)`; on `Ok(())` run
the body, then call `__exit__()`, and the expression is the body's result.
The caller-supplied methods are embedded as state transformers. -/

/-- The expansion of `with!`: `enterF` is `__enter__`, `bodyF` the body block,
`exitF` is `__exit__`; each acts on the program state `σ` it may mutate. -/
def withRun {σ ε α : Type} (enterF : σ → σ × Except ε Unit)
    (bodyF : σ → σ × Except ε α) (exitF : σ → σ) (s : σ) :
    σ × Except ε α :=
  let p := enterF s
  match p.2 with
  | .error e => (p.1, .error e)
  | .ok _ =>
    let pb := bodyF p.1
    (exitF pb.1, pb.2)

/-! ## The `enum_extend!` macro (src/macros/mod.rs)

For a variant list with discriminant values, the macro generates
`Into<$value_type>` mapping each variant to its value, and
`TryFrom<$value_type>` matching the value against the listed discriminants in
order and falling back to `Err($err_info(val))`. Variants are embedded as
their positional index; Rust rejects duplicate discriminants in a `repr`
enum, so the value list of any compiling expansion has no duplicates. -/

/-- The generated `Into`: variant at position `i` maps to its listed
discriminant value. -/
def enumInto (vals : List Nat) (i : Nat) : Nat :=
  vals.getD i 0

/-- The match of the generated `try_from` over the listed discriminants, in
listed order, returning the position of the first arm whose value equals
`v`. -/
def tryFromAux (vals : List Nat) (v : Nat) : Option Nat :=
  match vals with
  | [] => none
  | a :: l => if a = v then some 0 else (tryFromAux l v).map (· + 1)

/-- The generated `TryFrom`: the first listed variant whose discriminant is
`v`, else `Err` of the configured error constructor applied to `v`. -/
def enumTryFrom {ε : Type} (vals : List Nat) (errC : Nat → ε) (v : Nat) :
    Except ε Nat :=
  match tryFromAux vals v with
  | some i => .ok i
  | none => .error (errC v)

/-! ## Theorems -/

/-- C1 counterexample: the claim quantifies over every pair of severities
`L1 <= L2` and asserts a record at `L1` is suppressed by a threshold at `L2`;
at `L1 = L2 = Trace` (which satisfies `L1 <= L2`) the record is admitted, not
suppressed, because admission is `level >= threshold`. -/
theorem threshold_admission_claim_cex :
    Severity.severityRank .trace ≤ Severity.severityRank .trace ∧
    thresholdAdmits (Severity.toFilter .trace) .trace = true := by
  decide

/-- C1 (amended): a record is admitted by a threshold iff its severity rank is
at least the threshold's rank under Trace < Debug < Info < Warn < Error; and
for every strictly ordered pair `L1 < L2`, a record at `L1` is suppressed by a
threshold at `L2` while a record at `L2` is admitted. -/
theorem threshold_admission :
    (∀ l t : Severity,
      thresholdAdmits t.toFilter l = true ↔
        t.severityRank ≤ l.severityRank) ∧
    (∀ l1 l2 : Severity, l1.severityRank < l2.severityRank →
      thresholdAdmits l2.toFilter l1 = false ∧
      thresholdAdmits l2.toFilter l2 = true) := by
  decide

/-- Witness for C1: instantiating the amended admission theorem at the
strictly ordered pair Info < Error. -/
theorem threshold_admission_witness :
    thresholdAdmits (Severity.toFilter .error) .info = false ∧
    thresholdAdmits (Severity.toFilter .error) .error = true :=
  threshold_admission.2 .info .error (by decide)

/-- C2: whenever `initialize` succeeds, the installed backend holds exactly
one console appender — to stderr, thresholded at the configured console level
or Debug — a file appender iff a file base name was configured, thresholded
at the configured file level or Debug; the root level is the configured root
level or Trace; and every appender's encoder pattern is the configured
pattern or the default template. -/
theorem activate_structure (cfg : Log4rsConfig) (env : Env) (st : ProcState)
    (hok : (cfg.activate env st).2.2 = Except.ok ()) :
    ∃ b : BuiltConfig, (cfg.activate env st).1.backend = some b ∧
      b.appenders.filter (fun a => a.dest == Destination.consoleStderr) =
        [⟨"console", cfg.console_level.getD .debug,
          cfg.pattern.getD defaultPattern, .consoleStderr⟩] ∧
      ((∃ a ∈ b.appenders, a.dest.isFile = true) ↔ cfg.filename.isSome = true) ∧
      (∀ a ∈ b.appenders, a.dest.isFile = true →
        a.threshold = cfg.file_level.getD .debug) ∧
      b.rootLevel = cfg.root_level.getD .trace ∧
      (∀ a ∈ b.appenders, a.encoderPattern = cfg.pattern.getD defaultPattern) := by
  rcases hb : st.backend with _ | b0
  · rcases hfn : cfg.filename with _ | fn
    · refine ⟨⟨[⟨"console", cfg.console_level.getD .debug,
          cfg.pattern.getD defaultPattern, .consoleStderr⟩], ["console"],
          cfg.root_level.getD .trace⟩, ?_, ?_, ?_, ?_, ?_, ?_⟩ <;>
        simp [Log4rsConfig.activate, installConfig, hfn, hb, Destination.isFile]
    · cases hd : env.dirCreateOk
      · simp [Log4rsConfig.activate, installConfig, hfn, hb, hd] at hok
      · cases hf : env.fileOpenOk
        · simp [Log4rsConfig.activate, installConfig, hfn, hb, hd, hf] at hok
        · refine ⟨⟨[⟨"console", cfg.console_level.getD .debug,
              cfg.pattern.getD defaultPattern, .consoleStderr⟩,
              ⟨"file", cfg.file_level.getD .debug, cfg.pattern.getD defaultPattern,
                .file (cfg.filepath.getD "logs" ++ "/" ++ fn ++ "-" ++
                  fmtTimestamp env.now ++ ".log") false⟩],
              ["console", "file"], cfg.root_level.getD .trace⟩,
              ?_, ?_, ?_, ?_, ?_, ?_⟩ <;>
            simp [Log4rsConfig.activate, installConfig, hfn, hb, hd, hf,
              Destination.isFile]
  · exfalso
    rcases hfn : cfg.filename with _ | fn
    · simp [Log4rsConfig.activate, installConfig, hfn, hb] at hok
    · cases hd : env.dirCreateOk
      · simp [Log4rsConfig.activate, installConfig, hfn, hb, hd] at hok
      · cases hf : env.fileOpenOk <;>
          simp [Log4rsConfig.activate, installConfig, hfn, hb, hd, hf] at hok

/-- Witness for C2: a default configuration activated in a fresh process
installs the console-only backend with the documented defaults. -/
theorem activate_structure_witness :
    ∃ b : BuiltConfig,
      (Log4rsConfig.activate {} ⟨true, true, ⟨2026, 1, 2, 3, 4, 5⟩⟩
          ⟨none⟩).1.backend = some b ∧
      b.appenders.filter (fun a => a.dest == Destination.consoleStderr) =
        [⟨"console", LevelFilter.debug, defaultPattern, .consoleStderr⟩] ∧
      ((∃ a ∈ b.appenders, a.dest.isFile = true) ↔
        (Option.isSome (none : Option String)) = true) ∧
      (∀ a ∈ b.appenders, a.dest.isFile = true →
        a.threshold = LevelFilter.debug) ∧
      b.rootLevel = LevelFilter.trace ∧
      (∀ a ∈ b.appenders, a.encoderPattern = defaultPattern) :=
  activate_structure {} ⟨true, true, ⟨2026, 1, 2, 3, 4, 5⟩⟩ ⟨none⟩ rfl

/-- C3: when a file base name is configured, `initialize` first creates the
target directory recursively; and when that succeeds, its filesystem actions
are exactly the recursive directory creation followed by opening
`{directory}/{base}-{YYYY-MM-DD HH_MM_SS}.log` with `append = false`
(truncate mode), the timestamp rendered at second precision with a
`YYYY-MM-DD` date part and an `HH_MM_SS` time part. -/
theorem activate_file_naming (cfg : Log4rsConfig) (env : Env) (st : ProcState)
    (fn : String) (hfn : cfg.filename = some fn) :
    (cfg.activate env st).2.1.head? =
      some (FsEffect.createDirAll (cfg.filepath.getD "logs")) ∧
    (env.dirCreateOk = true →
      (cfg.activate env st).2.1 =
        [FsEffect.createDirAll (cfg.filepath.getD "logs"),
         FsEffect.openFile
           (cfg.filepath.getD "logs" ++ "/" ++ fn ++ "-" ++
             (pad4 env.now.year ++ "-" ++ pad2 env.now.month ++ "-" ++
               pad2 env.now.day ++ " " ++ pad2 env.now.hour ++ "_" ++
               pad2 env.now.minute ++ "_" ++ pad2 env.now.second) ++ ".log")
           false]) := by
  cases hd : env.dirCreateOk
  · constructor
    · simp [Log4rsConfig.activate, hfn, hd]
    · intro h
      simp at h
  · cases hf : env.fileOpenOk <;> rcases hb : st.backend with _ | b0 <;>
      refine ⟨?_, fun _ => ?_⟩ <;>
      simp [Log4rsConfig.activate, installConfig, hfn, hd, hf, hb, fmtTimestamp]

/-- Witness for C3: base name `myapp`, no directory configured (default
`logs`), at the clock reading 2026-01-02 03:04:05. -/
theorem activate_file_naming_witness :
    (Log4rsConfig.activate ⟨none, none, some "myapp", none, none, none⟩
        ⟨true, true, ⟨2026, 1, 2, 3, 4, 5⟩⟩ ⟨none⟩).2.1.head? =
      some (FsEffect.createDirAll "logs") ∧
    (true = true →
      (Log4rsConfig.activate ⟨none, none, some "myapp", none, none, none⟩
          ⟨true, true, ⟨2026, 1, 2, 3, 4, 5⟩⟩ ⟨none⟩).2.1 =
        [FsEffect.createDirAll "logs",
         FsEffect.openFile
           ("logs" ++ "/" ++ "myapp" ++ "-" ++
             (pad4 2026 ++ "-" ++ pad2 1 ++ "-" ++ pad2 2 ++ " " ++ pad2 3 ++
               "_" ++ pad2 4 ++ "_" ++ pad2 5) ++ ".log") false]) :=
  activate_file_naming ⟨none, none, some "myapp", none, none, none⟩
    ⟨true, true, ⟨2026, 1, 2, 3, 4, 5⟩⟩ ⟨none⟩ "myapp" rfl

/-- C4: with a backend already installed, `initialize` returns an error — it
is a total function into `Result`, so it cannot panic — and leaves the
process state, including the first backend and its appenders, unchanged. -/
theorem activate_one_shot (cfg : Log4rsConfig) (env : Env) (st : ProcState)
    (b : BuiltConfig) (hb : st.backend = some b) :
    (∃ e, (cfg.activate env st).2.2 = Except.error e) ∧
    (cfg.activate env st).1 = st ∧
    (cfg.activate env st).1.backend = some b := by
  rcases hfn : cfg.filename with _ | fn
  · refine ⟨⟨.alreadySet, ?_⟩, ?_, ?_⟩ <;>
      simp [Log4rsConfig.activate, installConfig, hfn, hb]
  · cases hd : env.dirCreateOk
    · refine ⟨⟨.ioError, ?_⟩, ?_, ?_⟩ <;>
        simp [Log4rsConfig.activate, hfn, hd, hb]
    · cases hf : env.fileOpenOk
      · refine ⟨⟨.fileOpenError, ?_⟩, ?_, ?_⟩ <;>
          simp [Log4rsConfig.activate, hfn, hd, hf, hb]
      · refine ⟨⟨.alreadySet, ?_⟩, ?_, ?_⟩ <;>
          simp [Log4rsConfig.activate, installConfig, hfn, hd, hf, hb]

/-- Witness for C4: a second activation in a process whose backend is the
console-only configuration errors and keeps that configuration installed. -/
theorem activate_one_shot_witness :
    (∃ e, (Log4rsConfig.activate {} ⟨true, true, ⟨2026, 1, 2, 3, 4, 5⟩⟩
        ⟨some ⟨[], ["console"], .trace⟩⟩).2.2 = Except.error e) ∧
    (Log4rsConfig.activate {} ⟨true, true, ⟨2026, 1, 2, 3, 4, 5⟩⟩
        ⟨some ⟨[], ["console"], .trace⟩⟩).1 = ⟨some ⟨[], ["console"], .trace⟩⟩ ∧
    (Log4rsConfig.activate {} ⟨true, true, ⟨2026, 1, 2, 3, 4, 5⟩⟩
        ⟨some ⟨[], ["console"], .trace⟩⟩).1.backend =
      some ⟨[], ["console"], .trace⟩ :=
  activate_one_shot {} ⟨true, true, ⟨2026, 1, 2, 3, 4, 5⟩⟩
    ⟨some ⟨[], ["console"], .trace⟩⟩ ⟨[], ["console"], .trace⟩ rfl

/-- C5: when the configured file directory cannot be created, `initialize`
returns the I/O error to its caller and the process-wide backend is exactly
what it was before — in particular, starting from no backend, no partial or
console-only backend is installed. -/
theorem activate_dir_fail_atomic (cfg : Log4rsConfig) (env : Env)
    (st : ProcState) (fn : String) (hfn : cfg.filename = some fn)
    (hd : env.dirCreateOk = false) :
    (cfg.activate env st).2.2 = Except.error InitError.ioError ∧
    (cfg.activate env st).1 = st := by
  constructor <;> simp [Log4rsConfig.activate, hfn, hd]

/-- Witness for C5: directory creation fails for a fresh process with a file
base name configured; the error is returned and no backend is installed. -/
theorem activate_dir_fail_atomic_witness :
    (Log4rsConfig.activate ⟨none, none, some "myapp", some "logs", none, none⟩
        ⟨false, true, ⟨2026, 1, 2, 3, 4, 5⟩⟩ ⟨none⟩).2.2 =
      Except.error InitError.ioError ∧
    (Log4rsConfig.activate ⟨none, none, some "myapp", some "logs", none, none⟩
        ⟨false, true, ⟨2026, 1, 2, 3, 4, 5⟩⟩ ⟨none⟩).1 = ⟨none⟩ :=
  activate_dir_fail_atomic ⟨none, none, some "myapp", some "logs", none, none⟩
    ⟨false, true, ⟨2026, 1, 2, 3, 4, 5⟩⟩ ⟨none⟩ "myapp" rfl rfl

/-- Helper: the plain local-mode line decomposed into color code, label,
separators, tag, message and reset. -/
theorem renderLocal_false_eq (tag : String) (sev : Severity) (msg : String)
    (loc : CallerLoc) :
    renderLocal false tag sev msg loc =
      colorCode sev ++ levelLabel sev ++ " - " ++ tag ++ " - " ++ msg ++
        ansiReset := by
  cases sev <;> rfl

/-- Helper: the `log-lineno` local-mode line decomposed into color code,
label, separators, tag, message, caller location and reset. -/
theorem renderLocal_true_eq (tag : String) (sev : Severity) (msg : String)
    (loc : CallerLoc) :
    renderLocal true tag sev msg loc =
      colorCode sev ++ levelLabel sev ++ " - " ++ tag ++ " - " ++ msg ++
        " (" ++ loc.file ++ ":" ++ toString loc.line ++ ")" ++ ansiReset := by
  cases sev <;> simp [renderLocal, colorCode, levelLabel, ansiReset,
    String.append_assoc]

/-- C6: in a local/verbose (`debug_assertions`) build, every leveled call on
a `LogCat` appends exactly one colorized rendered line to the console,
leaving the rest of the world alone; the emitted line is the same whatever
backend is installed (including none); and when the `log-lineno` call-site
capture is enabled the line carries the caller's `file:line`. -/
theorem local_mode_emission (c : LogCat) (lineno : Bool) (sev : Severity)
    (msg : String) (loc : CallerLoc) (w : World) :
    (c.leveled lineno sev msg loc w).consoleOut =
      w.consoleOut ++ [renderLocal lineno c.tag sev msg loc] ∧
    (c.leveled lineno sev msg loc w).backend = w.backend ∧
    (∀ (b1 b2 : Option BuiltConfig) (out : List String),
      (c.leveled lineno sev msg loc ⟨b1, out⟩).consoleOut =
        (c.leveled lineno sev msg loc ⟨b2, out⟩).consoleOut) ∧
    (∃ s1 s2 : String,
      renderLocal true c.tag sev msg loc =
        s1 ++ (loc.file ++ ":" ++ toString loc.line) ++ s2) := by
  refine ⟨rfl, rfl, fun b1 b2 out => rfl,
    ⟨colorCode sev ++ levelLabel sev ++ " - " ++ c.tag ++ " - " ++ msg ++ " (",
      ")" ++ ansiReset, ?_⟩⟩
  rw [renderLocal_true_eq]
  simp [String.append_assoc]

/-- C8: a local-mode line is exactly the severity's ANSI color code, its
fixed-width label, ` - `, the tag, ` - `, the message, then the reset code —
with ` (file:line)` inserted before the reset when call-site capture is on;
at severity Error, tag `APP`, message `disk full`, the line contains the
Error color code, `APP`, `disk full` and the reset code in that order. -/
theorem colorized_line_layout :
    (∀ (sev : Severity) (tag msg : String) (loc : CallerLoc),
      renderLocal false tag sev msg loc =
        colorCode sev ++ levelLabel sev ++ " - " ++ tag ++ " - " ++ msg ++
          ansiReset) ∧
    (∀ (sev : Severity) (tag msg : String) (loc : CallerLoc),
      renderLocal true tag sev msg loc =
        colorCode sev ++ levelLabel sev ++ " - " ++ tag ++ " - " ++ msg ++
          " (" ++ loc.file ++ ":" ++ toString loc.line ++ ")" ++ ansiReset) ∧
    (∃ s1 s2 s3 : String,
      renderLocal false "APP" .error "disk full" ⟨"main.rs", 1⟩ =
        colorCode .error ++ s1 ++ "APP" ++ s2 ++ "disk full" ++ s3 ++
          ansiReset) := by
  exact ⟨fun sev tag msg loc => renderLocal_false_eq tag sev msg loc,
    fun sev tag msg loc => renderLocal_true_eq tag sev msg loc,
    "[ ERROR] - ", " - ", "", by decide⟩

/-- C7: at every severity and in every build mode, invoking the leveled macro
with an empty argument list emits exactly one console line, and that line is
blank — the macro is a total function, so this is neither an error nor a
crash. -/
theorem empty_macro_blank_line :
    ∀ (sev : Severity) (mode : BuildMode),
      macroEmit sev mode none = [Emit.console ""] :=
  fun _ _ => rfl

/-- Helper for C9: the error-path equation of the `with!` expansion. -/
theorem withRun_error {σ ε α : Type} (enterF : σ → σ × Except ε Unit)
    (bodyF : σ → σ × Except ε α) (exitF : σ → σ) (s : σ) (e : ε)
    (he : (enterF s).2 = Except.error e) :
    withRun enterF bodyF exitF s = ((enterF s).1, Except.error e) := by
  simp [withRun, he]

/-- C9: if `__enter__` returns `Err(e)` the whole `with!` expression is
`Err(e)`, and neither the body nor `__exit__` contributes — the result is
the same whatever body and `__exit__` are supplied; if `__enter__` returns
`Ok(())`, `__exit__` is applied exactly once, to the state after the body,
and the expression's value is the body's result, Err included. -/
theorem with_macro_lifecycle {σ ε α : Type} (enterF : σ → σ × Except ε Unit)
    (bodyF : σ → σ × Except ε α) (exitF : σ → σ) (s : σ) :
    (∀ e : ε, (enterF s).2 = Except.error e →
      withRun enterF bodyF exitF s = ((enterF s).1, Except.error e) ∧
      ∀ (bF : σ → σ × Except ε α) (eF : σ → σ),
        withRun enterF bF eF s = withRun enterF bodyF exitF s) ∧
    ((enterF s).2 = Except.ok () →
      withRun enterF bodyF exitF s =
        (exitF (bodyF (enterF s).1).1, (bodyF (enterF s).1).2)) := by
  refine ⟨fun e he => ⟨withRun_error _ _ _ _ e he, fun bF eF => ?_⟩,
    fun he => ?_⟩
  · rw [withRun_error _ _ _ _ e he, withRun_error _ _ _ _ e he]
  · simp [withRun, he]

/-- Witness for C9: a failing `__enter__` short-circuits to its error; a
succeeding `__enter__` runs the body and then `__exit__` once, returning the
body's result. -/
theorem with_macro_lifecycle_witness :
    withRun (fun s : Nat => (s + 1, Except.error "boom"))
      (fun s : Nat => (s * 2, Except.ok s)) (fun s : Nat => s + 10) 0 =
      (1, Except.error "boom") ∧
    withRun (fun s : Nat => (s + 1, (Except.ok () : Except String Unit)))
      (fun s : Nat => (s * 2, Except.ok s)) (fun s : Nat => s + 10) 0 =
      (12, Except.ok 1) := by
  constructor
  · exact ((with_macro_lifecycle (fun s : Nat => (s + 1, Except.error "boom"))
      (fun s : Nat => (s * 2, Except.ok s)) (fun s : Nat => s + 10) 0).1
        "boom" rfl).1
  · have h := (with_macro_lifecycle
      (fun s : Nat => (s + 1, (Except.ok () : Except String Unit)))
      (fun s : Nat => (s * 2, Except.ok s)) (fun s : Nat => s + 10) 0).2 rfl
    simpa using h

/-- Helper for C10: matching an integer that equals no listed discriminant
falls through every arm. -/
theorem tryFromAux_not_mem {vals : List Nat} {v : Nat} (h : v ∉ vals) :
    tryFromAux vals v = none := by
  induction vals with
  | nil => rfl
  | cons a l ih =>
    have h1 : a ≠ v := fun e => h (e ▸ List.mem_cons_self a l)
    have h2 : v ∉ l := fun m => h (List.mem_cons_of_mem a m)
    simp [tryFromAux, h1, ih h2]

/-- Helper for C10: with pairwise distinct discriminants, matching the `i`-th
variant's discriminant selects arm `i`. -/
theorem tryFromAux_getD {vals : List Nat} (hnd : vals.Nodup) {i : Nat}
    (hi : i < vals.length) : tryFromAux vals (vals.getD i 0) = some i := by
  induction vals generalizing i with
  | nil => simp at hi
  | cons a l ih =>
    cases i with
    | zero => simp [tryFromAux]
    | succ n =>
      have hn : n < l.length := by simpa using hi
      have hmem : l.getD n 0 ∈ l := by
        rw [List.getD_eq_getElem l 0 hn]
        exact List.getElem_mem hn
      have hne : a ≠ l.getD n 0 := by
        intro e
        exact (List.nodup_cons.mp hnd).1 (e ▸ hmem)
      have hnd2 := (List.nodup_cons.mp hnd).2
      have hgd : (a :: l).getD (n + 1) 0 = l.getD n 0 := rfl
      rw [hgd]
      simp only [tryFromAux]
      rw [if_neg hne, ih hnd2 hn]
      rfl

/-- C10: for the code `enum_extend!` generates — variants listed with
pairwise distinct discriminants, as Rust requires of a `repr` enum —
converting any variant to its integer and back with `TryFrom` yields `Ok` of
the same variant, and `TryFrom` of an integer equal to no listed
discriminant yields `Err` of the configured error constructor applied to
that integer. -/
theorem enum_extend_round_trip :
    (∀ (vals : List Nat) {ε : Type} (errC : Nat → ε) (i : Nat),
      vals.Nodup → i < vals.length →
      enumTryFrom vals errC (enumInto vals i) = Except.ok i) ∧
    (∀ (vals : List Nat) {ε : Type} (errC : Nat → ε) (v : Nat),
      v ∉ vals → enumTryFrom vals errC v = Except.error (errC v)) := by
  constructor
  · intro vals ε errC i hnd hi
    unfold enumTryFrom enumInto
    rw [tryFromAux_getD hnd hi]
  · intro vals ε errC v hv
    unfold enumTryFrom
    rw [tryFromAux_not_mem hv]

/-- Witness for C10: the enum of the crate's own test (`T1 = 1, T2 = 2` over
`u8` with `Error::InvalidValue`): both variants round-trip and `3` maps to
the error constructor applied to `3`. -/
theorem enum_extend_round_trip_witness :
    enumTryFrom [1, 2] id (enumInto [1, 2] 0) = Except.ok 0 ∧
    enumTryFrom [1, 2] id (enumInto [1, 2] 1) = Except.ok 1 ∧
    enumTryFrom [1, 2] id 3 = Except.error (id 3) :=
  ⟨enum_extend_round_trip.1 [1, 2] id 0 (by decide) (by decide),
    enum_extend_round_trip.1 [1, 2] id 1 (by decide) (by decide),
    enum_extend_round_trip.2 [1, 2] id 3 (by decide)⟩

end RsUtils
